import Mathlib

/-!
# Verification of the `ul2` Rust binding layer (Ultralight / JavaScriptCore)

Shallow embedding of the ownership, callback-bridging, string-bridge and
scoped-lock code of the `ul2` crate.  Native C calls are modelled as an
explicit trace of `NativeCall` events; opaque native pointers are modelled
as `Nat` (with `0` playing the role of the C null pointer); the native
string store is modelled as an explicit heap.  Each Lean definition embeds
one Rust item of the crate and is named after it.
-/

set_option maxHeartbeats 1000000

namespace UL2

/-- A native C call crossing the FFI boundary, as recorded in a trace.
Pointers are `Nat`, `0` = null. -/
inductive NativeCall where
  | ulDestroyWindow (raw : Nat)
  | ulDestroyView (raw : Nat)
  | ulDestroyString (raw : Nat)
  | ulDestroyBitmap (raw : Nat)
  | ulDestroyBuffer (raw : Nat)
  | ulBitmapLockPixels (raw : Nat)
  | ulBitmapUnlockPixels (raw : Nat)
  | ulSurfaceLockPixels (raw : Nat)
  | ulSurfaceUnlockPixels (raw : Nat)
  | ulWindowSetTitle (raw : Nat) (title : List Char)
  | ulSettingsSetAppName (raw : Nat) (name : Nat)
  deriving DecidableEq

/-- Outcome of running a piece of Rust code that may panic (e.g. a
`CString::new(..).unwrap()`).  `panicked` carries no message: only the
fact of the panic is modelled. -/
inductive RustOutcome (α : Type) where
  | panicked : RustOutcome α
  | value : α → RustOutcome α
  deriving DecidableEq

/-- `true` iff the host string contains an embedded NUL byte.  For valid
UTF-8 a zero byte occurs exactly at a NUL character, so the check is done
on the character list. -/
def containsNul (s : String) : Bool :=
  s.data.any (fun c => c = Char.ofNat 0)

/-- Embeds `std::ffi::CString::new`: fails (returns `none`, modelling
`Err(NulError)`) exactly when the input has an embedded NUL; otherwise
yields the input's characters, to be NUL-terminated at the FFI boundary. -/
def CString.new (s : String) : Option (List Char) :=
  if containsNul s then none else some s.data

/-- Embeds `std::ffi::CStr::from_ptr` followed by reading the bytes: the
characters of the buffer up to (excluding) the first NUL terminator. -/
def CStr.from_ptr (buf : List Char) : List Char :=
  buf.takeWhile (fun c => c ≠ Char.ofNat 0)

end UL2

namespace UL2.appCore

open UL2

/-- Embeds `app_core::window::Window`.  Only the `raw` pointer field is
kept here: the two `Arc<Mutex<CallbackStorage>>` fields never emit native
calls on drop and their replacement protocol is embedded separately (see
`WindowSlotModel`). -/
structure Window where
  raw : Nat
  deriving DecidableEq

/-- Embeds `Window::from_raw_temp` (window.rs:165): builds a `Window`
from a pointer received as a trampoline argument.  The source stores the
pointer with no ownership flag. -/
def Window.from_raw_temp (raw : Nat) : Window := ⟨raw⟩

/-- Embeds `impl Drop for Window` (window.rs:398-406): calls
`ulDestroyWindow(self.raw)` whenever `self.raw` is non-null.  There is no
ownership flag in the struct, so the check is on nullness alone. -/
def Window.dropCalls (w : Window) : List NativeCall :=
  if w.raw ≠ 0 then [NativeCall.ulDestroyWindow w.raw] else []

/-- Embeds `close_callback_wrapper` (window.rs:40-51): when both
`user_data` and `window_ptr` are non-null, builds a temporary `Window`
via `from_raw_temp`, invokes the boxed callback on it, and lets the
temporary `Window` drop at the end of the scope.  `on_close` stands for
the user callback's behaviour, given as the native calls it performs. -/
def close_callback_wrapper (user_data window_ptr : Nat)
    (on_close : Window → List NativeCall) : List NativeCall :=
  if user_data ≠ 0 ∧ window_ptr ≠ 0 then
    let window := Window.from_raw_temp window_ptr
    on_close window ++ window.dropCalls
  else []

/-- Embeds `resize_callback_wrapper` (window.rs:53-66): same shape as
`close_callback_wrapper` with width/height arguments. -/
def resize_callback_wrapper (user_data window_ptr width height : Nat)
    (on_resize : Window → Nat → Nat → List NativeCall) : List NativeCall :=
  if user_data ≠ 0 ∧ window_ptr ≠ 0 then
    let window := Window.from_raw_temp window_ptr
    on_resize window width height ++ window.dropCalls
  else []

end UL2.appCore

namespace UL2.ul

open UL2

/-- Embeds the wrapper fields of `ul::string::String` (string.rs:13-16):
a raw `ULString` pointer plus the `owned` flag read by `Drop`. -/
structure ULString where
  raw : Nat
  owned : Bool
  deriving DecidableEq

/-- Embeds `String::from_raw` (string.rs:29-31). -/
def ULString.from_raw (raw : Nat) (owned : Bool) : ULString := ⟨raw, owned⟩

/-- Embeds `impl Drop for String` (string.rs:211-219): calls
`ulDestroyString` iff the pointer is non-null and the wrapper is owned. -/
def ULString.dropCalls (u : ULString) : List NativeCall :=
  if u.raw ≠ 0 ∧ u.owned then [NativeCall.ulDestroyString u.raw] else []

/-- Embeds `ul::view::View` (view.rs:491-493): one raw pointer, no
ownership flag. -/
structure View where
  raw : Nat
  deriving DecidableEq

/-- Embeds `View::from_raw` (view.rs:520-522). -/
def View.from_raw (raw : Nat) : View := ⟨raw⟩

/-- Embeds `impl Drop for View` (view.rs:986-994): destroys whenever the
pointer is non-null. -/
def View.dropCalls (v : View) : List NativeCall :=
  if v.raw ≠ 0 then [NativeCall.ulDestroyView v.raw] else []

/-- Embeds `change_title_callback` (view.rs:160-175): builds a `View`
with `View::from_raw` and a non-owned `String` with
`String::from_raw(title, false)`, invokes the callback, then calls
`std::mem::forget(view)` so the view's drop never runs; the title string
wrapper drops normally (a no-op, as it is not owned).  Unlike the window
wrappers there is no null check on `user_data`. -/
def change_title_callback (user_data caller title : Nat)
    (on_change_title : View → ULString → List NativeCall) : List NativeCall :=
  let view := View.from_raw caller
  let title_str := ULString.from_raw title false
  on_change_title view title_str ++ ULString.dropCalls title_str

/-- Embeds the variants of `ul::error::Error` (error.rs:7-32) exercised
by the embedded code. -/
inductive Error where
  | NullReference (desc : String)
  | InvalidOperation (desc : String)
  | JavaScriptError (desc : String)
  | InvalidArgument (desc : String)
  deriving DecidableEq

/-- Model of the native string store behind the `ULString` opaque
pointers: an association list from addresses to stored character data,
plus the next fresh address.  Address `0` is the null pointer and is
never allocated while `next` stays positive. -/
structure ULHeap where
  strings : List (Nat × List Char)
  next : Nat
  deriving DecidableEq

/-- A fresh native string store. -/
def ULHeap.empty : ULHeap := ⟨[], 1⟩

/-- Model of the native `ulCreateString(c_str)`: reads the NUL-terminated
buffer up to the terminator, copies the characters into a fresh native
string, and returns its address. -/
def ulCreateString (h : ULHeap) (cstr : List Char) : ULHeap × Nat :=
  let stored := CStr.from_ptr (cstr ++ [Char.ofNat 0])
  (⟨(h.next, stored) :: h.strings, h.next + 1⟩, h.next)

/-- Model of the native `ulStringGetData`: a pointer to the string's
NUL-terminated character buffer, or `none` (null) when the address does
not refer to a live native string. -/
def ulStringGetData (h : ULHeap) (raw : Nat) : Option (List Char) :=
  (h.strings.lookup raw).map (fun d => d ++ [Char.ofNat 0])

/-- Embeds `String::from_str` (string.rs:49-55): `CString::new(s).unwrap()`
— a panic when `s` has an embedded NUL — then `ulCreateString`, wrapped
with `owned = true`. -/
def ULString.from_str (h : ULHeap) (s : String) :
    RustOutcome (ULHeap × ULString) :=
  match CString.new s with
  | none => RustOutcome.panicked
  | some c_str =>
    let r := ulCreateString h c_str
    RustOutcome.value (r.1, ⟨r.2, true⟩)

/-- Embeds `String::as_str` (string.rs:108-124): errors with
`NullReference` on a null wrapper pointer or null data pointer, otherwise
reads the C string up to its NUL terminator.  The UTF-8 validation
performed by `CStr::to_str` always succeeds in this character-level
model, so the `InvalidOperation` branch is unreachable here. -/
def ULString.as_str (h : ULHeap) (u : ULString) : Except Error String :=
  if u.raw = 0 then Except.error (Error.NullReference "String is null")
  else
    match ulStringGetData h u.raw with
    | none => Except.error (Error.NullReference "String data is null")
    | some data => Except.ok ⟨CStr.from_ptr data⟩

end UL2.ul

namespace UL2.appCore

open UL2

/-- Embeds the variants of `app_core::error::Error` (error.rs:4-13). -/
inductive Error where
  | NullReference (desc : String)
  | InvalidOperation (desc : String)
  | CreationFailed (desc : String)
  | InvalidArgument (desc : String)
  | ResourceNotFound (desc : String)
  | ResourceAllocationFailed (desc : String)
  | CallbackRegistrationFailed (desc : String)
  deriving DecidableEq

/-- Embeds `Window::set_title` (window.rs:330-341): builds the C string
directly with `CString::new`, turning an embedded NUL into an
`InvalidArgument` error; on success calls `ulWindowSetTitle` with the
full, untruncated title. -/
def Window.set_title (w : Window) (title : String) :
    Except Error (List NativeCall) :=
  match CString.new title with
  | none => Except.error (Error.InvalidArgument "Title contains null bytes")
  | some c_title => Except.ok [NativeCall.ulWindowSetTitle w.raw c_title]

/-- Embeds `app_core::settings::Settings` (settings.rs:10-12). -/
structure Settings where
  raw : Nat
  deriving DecidableEq

/-- Embeds `Settings::set_app_name` (settings.rs:71-77): goes through
`ul::String::from_str`, so an embedded NUL in the name propagates that
function's panic; on success passes the native string to
`ulSettingsSetAppName`. -/
def Settings.set_app_name (st : Settings) (h : ul.ULHeap) (name : String) :
    RustOutcome (ul.ULHeap × List NativeCall) :=
  match ul.ULString.from_str h name with
  | RustOutcome.panicked => RustOutcome.panicked
  | RustOutcome.value (h2, name_string) =>
    RustOutcome.value (h2, [NativeCall.ulSettingsSetAppName st.raw name_string.raw])

end UL2.appCore

namespace UL2.ul

open UL2

/-- Embeds `View::new` (view.rs:497-513): stores the result of
`ulCreateView` directly, with no null check and no error channel (the
return type in the source is `Self`, not `Result`).  The parameter
models the pointer returned by the native create call. -/
def View.new (ulCreateView_result : Nat) : View := ⟨ulCreateView_result⟩

/-- Embeds `ul::bitmap::Bitmap` (bitmap.rs:15-18): raw pointer plus the
`owned` flag read by `Drop`. -/
structure Bitmap where
  raw : Nat
  owned : Bool
  deriving DecidableEq

/-- Embeds `Bitmap::from_raw` (bitmap.rs:54-56). -/
def Bitmap.from_raw (raw : Nat) (owned : Bool) : Bitmap := ⟨raw, owned⟩

/-- Embeds `impl Drop for Bitmap` (bitmap.rs:194-202): destroys iff the
pointer is non-null and the wrapper is owned. -/
def Bitmap.dropCalls (b : Bitmap) : List NativeCall :=
  if b.raw ≠ 0 ∧ b.owned then [NativeCall.ulDestroyBitmap b.raw] else []

/-- Embeds `ul::buffer::Buffer` (buffer.rs:11-14). -/
structure Buffer where
  raw : Nat
  owned : Bool
  deriving DecidableEq

/-- Embeds `Buffer::from_raw` (buffer.rs:24-26). -/
def Buffer.from_raw (raw : Nat) (owned : Bool) : Buffer := ⟨raw, owned⟩

/-- Embeds `impl Drop for Buffer` (buffer.rs:74-82): destroys iff the
pointer is non-null and the wrapper is owned. -/
def Buffer.dropCalls (b : Buffer) : List NativeCall :=
  if b.raw ≠ 0 ∧ b.owned then [NativeCall.ulDestroyBuffer b.raw] else []

/-- The native calls emitted by dropping every wrapper of a collection,
in order.  Used to state the zero-destroy property of borrowed views. -/
def combinedDrops {α : Type} (f : α → List NativeCall) (hs : List α) :
    List NativeCall :=
  (hs.map f).flatten

/-- Embeds `Bitmap::lock_pixels`' guard type `LockedPixels`
(bitmap.rs:21-26): the issuing bitmap's pointer, the locked pixel
pointer and the size queried at lock time. -/
structure BitmapLockedPixels where
  bitmapRaw : Nat
  pixels : Nat
  size : Nat
  deriving DecidableEq

/-- Embeds `impl Drop for LockedPixels` (bitmap.rs:40-46): one
`ulBitmapUnlockPixels` on the issuing bitmap, unconditionally. -/
def BitmapLockedPixels.dropCalls (l : BitmapLockedPixels) : List NativeCall :=
  [NativeCall.ulBitmapUnlockPixels l.bitmapRaw]

/-- Embeds `Bitmap::lock_pixels` (bitmap.rs:140-154): calls
`ulBitmapLockPixels` (recorded in the trace); if the native call returns
null the method fails with a `NullReference` error and no guard is
produced, otherwise it returns the guard.  `lockResult` models the
pointer returned by the native lock call and `size` the result of
`self.size()`. -/
def Bitmap.lock_pixels (b : Bitmap) (lockResult size : Nat) :
    List NativeCall × Except Error BitmapLockedPixels :=
  ([NativeCall.ulBitmapLockPixels b.raw],
   if lockResult = 0 then
     Except.error (Error.NullReference "Failed to lock bitmap pixels")
   else Except.ok ⟨b.raw, lockResult, size⟩)

/-- A Rust scope holding a `LockedPixels` guard from
`Bitmap::lock_pixels`: whatever the body does (including an early
return, modelled by the body trace simply ending), the guard's drop runs
exactly once when the scope is left, appending its unlock call. -/
def Bitmap.lock_pixels_scope (b : Bitmap) (lockResult size : Nat)
    (body : BitmapLockedPixels → List NativeCall) : List NativeCall :=
  match b.lock_pixels lockResult size with
  | (t, Except.error _) => t
  | (t, Except.ok guard) => t ++ body guard ++ guard.dropCalls

/-- Embeds `ul::surface::Surface` (surface.rs:42-44). -/
structure Surface where
  raw : Nat
  deriving DecidableEq

/-- Embeds `Surface::from_raw` (surface.rs:138-140). -/
def Surface.from_raw (raw : Nat) : Surface := ⟨raw⟩

/-- Embeds `View::surface` (view.rs:603-612): `None` when
`ulViewGetSurface` returns null, `Some(Surface::from_raw(..))`
otherwise.  `ulViewGetSurface_result` models the native return value. -/
def View.surface (v : View) (ulViewGetSurface_result : Nat) : Option Surface :=
  if ulViewGetSurface_result = 0 then none
  else some (Surface.from_raw ulViewGetSurface_result)

/-- Embeds `Surface::lock_pixels`' guard type `LockedPixels`
(surface.rs:14-19). -/
structure SurfaceLockedPixels where
  surfaceRaw : Nat
  pixels : Nat
  size : Nat
  deriving DecidableEq

/-- Embeds `impl Drop for LockedPixels` (surface.rs:33-39). -/
def SurfaceLockedPixels.dropCalls (l : SurfaceLockedPixels) : List NativeCall :=
  [NativeCall.ulSurfaceUnlockPixels l.surfaceRaw]

/-- Embeds `Surface::lock_pixels` (surface.rs:168-182): fails with
`Err(())` when `ulSurfaceLockPixels` returns null, produces the guard
otherwise. -/
def Surface.lock_pixels (s : Surface) (lockResult size : Nat) :
    List NativeCall × Except Unit SurfaceLockedPixels :=
  ([NativeCall.ulSurfaceLockPixels s.raw],
   if lockResult = 0 then Except.error ()
   else Except.ok ⟨s.raw, lockResult, size⟩)

/-- A Rust scope holding a `LockedPixels` guard from
`Surface::lock_pixels`; the guard's drop runs exactly once on every exit
path. -/
def Surface.lock_pixels_scope (s : Surface) (lockResult size : Nat)
    (body : SurfaceLockedPixels → List NativeCall) : List NativeCall :=
  match s.lock_pixels lockResult size with
  | (t, Except.error _) => t
  | (t, Except.ok guard) => t ++ body guard ++ guard.dropCalls

/-- State of one per-view callback slot as produced by the
`CallbackData` pattern of view.rs.  `allocatedBoxes` records every boxed
callback leaked to a raw pointer by `CallbackData::new`
(view.rs:452-458, `Box::into_raw`); `freedBoxes` records every box
reclaimed by `CallbackData::drop` (view.rs:460-466); `registered` is the
callback the native side currently holds.  Callbacks are identified by
`Nat` ids. -/
structure ViewSlotModel where
  allocatedBoxes : List Nat
  freedBoxes : List Nat
  registered : Option Nat
  deriving DecidableEq

/-- A view slot before any registration. -/
def ViewSlotModel.empty : ViewSlotModel := ⟨[], [], none⟩

/-- Embeds `View::set_change_title_callback` (view.rs:756-767) — the
shape shared by all the view event-callback setters: `CallbackData::new`
boxes the callback and leaks it via `Box::into_raw` as `user_data`, then
`ulViewSetChangeTitleCallback` installs the trampoline.  Nothing records
or frees the previously installed box: `CallbackData::drop` has no
caller anywhere in the crate. -/
def ViewSlotModel.set_change_title_callback (st : ViewSlotModel) (cb : Nat) :
    ViewSlotModel :=
  ⟨st.allocatedBoxes ++ [cb], st.freedBoxes, some cb⟩

/-- A native trampoline invocation on a view slot: the trampoline
recovers and invokes the callback behind the currently registered
`user_data`. -/
def ViewSlotModel.invoke (st : ViewSlotModel) : Option Nat := st.registered

end UL2.ul

namespace UL2.appCore

open UL2

/-- Embeds `Settings::new` (settings.rs:20-28): `ulCreateSettings`, with
an explicit `CreationFailed` error when the native call returns null.
The parameter models the native return value. -/
def Settings.new (ulCreateSettings_result : Nat) : Except Error Settings :=
  if ulCreateSettings_result = 0 then
    Except.error (Error.CreationFailed "Failed to create settings")
  else Except.ok ⟨ulCreateSettings_result⟩

/-- Embeds the null check of `Window::new` (window.rs:109-134):
`ulCreateWindow`, with a `CreationFailed` error on a null result.  The
monitor/size/flag arguments only feed the native call and are absorbed
into the modelled native result. -/
def Window.new (ulCreateWindow_result : Nat) : Except Error Window :=
  if ulCreateWindow_result = 0 then
    Except.error (Error.CreationFailed "Failed to create window")
  else Except.ok ⟨ulCreateWindow_result⟩

/-- Embeds `app_core::app::App` (app.rs:49-53); the update-callback
storage is embedded separately as `CallbackStorageModel`. -/
structure App where
  raw : Nat
  deriving DecidableEq

/-- Embeds the null check of `App::new` (app.rs:68-80). -/
def App.new (ulCreateApp_result : Nat) : Except Error App :=
  if ulCreateApp_result = 0 then
    Except.error (Error.CreationFailed "Failed to create app instance")
  else Except.ok ⟨ulCreateApp_result⟩

/-- State of one `CallbackStorage`-backed slot — the pattern used for
the Window close/resize slots (window.rs:69-86) and the App update slot
(app.rs:28-45).  `stored` is `CallbackStorage.data` (the id of the
currently boxed callback); `droppedBoxes` logs every box dropped, in
order; `registered` is what the native side currently holds as
`user_data`. -/
structure CallbackStorageModel where
  stored : Option Nat
  droppedBoxes : List Nat
  registered : Option Nat
  deriving DecidableEq

/-- A slot before any registration (`CallbackStorage::new`). -/
def CallbackStorageModel.empty : CallbackStorageModel := ⟨none, [], none⟩

/-- Embeds `Window::set_close_callback` (window.rs:183-200) — the shape
shared with `set_resize_callback` and `App::set_update_callback`:
`CallbackStorage::set` assigns `self.data = Some(Box::new(data))`,
which drops the previously stored box (exactly once), and returns the
new box's address as `user_data`; then the native setter installs the
trampoline for the new callback.  The mutex-poisoning error branch is
not modelled (single-threaded model, the lock always succeeds). -/
def CallbackStorageModel.set_callback (st : CallbackStorageModel) (cb : Nat) :
    CallbackStorageModel :=
  ⟨some cb, st.droppedBoxes ++ st.stored.toList, some cb⟩

/-- Embeds `Window::clear_close_callback` (window.rs:207-219):
`CallbackStorage::clear` drops the stored box and the native
registration is reset to a null function pointer. -/
def CallbackStorageModel.clear_callback (st : CallbackStorageModel) :
    CallbackStorageModel :=
  ⟨none, st.droppedBoxes ++ st.stored.toList, none⟩

/-- A native trampoline invocation on a `CallbackStorage` slot: the
trampoline recovers and invokes the callback behind the registered
`user_data`. -/
def CallbackStorageModel.invoke (st : CallbackStorageModel) : Option Nat :=
  st.registered

end UL2.appCore

namespace UL2.jsCore

open UL2

/-- Embeds `javascript_core::context::GlobalContext`
(context.rs). -/
structure GlobalContext where
  raw : Nat
  deriving DecidableEq

/-- Embeds `GlobalContext::new` (context.rs:225-230): stores the result
of `JSGlobalContextCreate(null)` directly, with no null check and no
error channel (the return type in the source is `Self`). -/
def GlobalContext.new (JSGlobalContextCreate_result : Nat) : GlobalContext :=
  ⟨JSGlobalContextCreate_result⟩

/-- Embeds the raw-pointer part of `javascript_core::object::Object`;
the paired context handle plays no role in the embedded accessors. -/
structure Object where
  raw : Nat
  deriving DecidableEq

/-- Embeds the raw-pointer part of `javascript_core::value::Value`. -/
structure Value where
  raw : Nat
  deriving DecidableEq

/-- Embeds `Object::get_proxy_target` (object.rs:1517-1529): `None`
when `JSObjectGetProxyTarget(self.raw)` returns null, `Some` of the
wrapped object otherwise.  The parameter models the native result. -/
def Object.get_proxy_target (o : Object) (JSObjectGetProxyTarget_result : Nat) :
    Option Object :=
  if JSObjectGetProxyTarget_result = 0 then none
  else some ⟨JSObjectGetProxyTarget_result⟩

/-- Embeds the fields of `Error::JSException` (exception.rs:31-42). -/
structure JSExceptionInfo where
  message : String
  source_url : Option String
  line : Option Nat
  column : Option Nat
  stack_trace : Option String
  deriving DecidableEq

/-- Embeds `javascript_core::exception::Error` (exception.rs:29-61). -/
inductive Error where
  | JSException (info : JSExceptionInfo)
  | JSError (msg : String)
  | InvalidParameter (msg : String)
  | InvalidType (msg : String)
  | ConversionError (msg : String)
  | NullAccess (msg : String)
  | UnsupportedOperation (msg : String)
  deriving DecidableEq

/-- Embeds `Object::get_private_property` (object.rs:1354-1369): always
`Ok`, with `None` exactly when `JSObjectGetPrivateProperty` returns
null. -/
def Object.get_private_property (o : Object)
    (JSObjectGetPrivateProperty_result : Nat) : Except Error (Option Value) :=
  if JSObjectGetPrivateProperty_result = 0 then Except.ok none
  else Except.ok (some ⟨JSObjectGetPrivateProperty_result⟩)

/-- Result of probing one property of an exception object in
`Error::from_js_exception`: the outcome of `value.to_string()` and of
`value.to_number()` on the property's value (`none` models the `Err`
branch that is silently skipped).  The numeric payload stands for the
`f64` cast to `u32` in the source; float semantics are not modelled. -/
structure JSPropResult where
  str : Option String
  num : Option Nat
  deriving DecidableEq

/-- Model of a native exception value as observed by
`Error::from_js_exception`: the outcome of converting the exception
itself to a string, whether it is an object and converts to one, and the
outcome of `get_property` for each probed property (`none` models a
`get_property` error, which is silently skipped). -/
structure JSExcValue where
  to_string_result : Option String
  is_object : Bool
  to_object_ok : Bool
  sourceURL : Option JSPropResult
  line : Option JSPropResult
  column : Option JSPropResult
  stack : Option JSPropResult
  deriving DecidableEq

/-- Embeds `Error::from_js_exception` (exception.rs:79-137): the message
is the exception's `to_string` result, falling back to
"Unknown JavaScript exception"; when the exception is an object that
converts to one, each of sourceURL/line/column/stack is probed
best-effort, any failure yielding `None` rather than an error; the
result is always a `JSException`. -/
def Error.from_js_exception (e : JSExcValue) : Error :=
  let message :=
    match e.to_string_result with
    | some m => m
    | none => "Unknown JavaScript exception"
  if e.is_object && e.to_object_ok then
    Error.JSException ⟨message,
      e.sourceURL.bind (fun p => p.str),
      e.line.bind (fun p => p.num),
      e.column.bind (fun p => p.num),
      e.stack.bind (fun p => p.str)⟩
  else
    Error.JSException ⟨message, none, none, none, none⟩

/-- Embeds `javascript_core::string::String` at the level of its
character content: the wrapper owns one native `JSStringRef`, modelled
directly by the characters it stores. -/
structure JSString where
  chars : List Char
  deriving DecidableEq

/-- Model of the native `JSStringCreateWithUTF8CString`: reads the
NUL-terminated UTF-8 buffer up to the terminator and stores the decoded
characters. -/
def JSStringCreateWithUTF8CString (cstr : List Char) : JSString :=
  ⟨CStr.from_ptr (cstr ++ [Char.ofNat 0])⟩

/-- Embeds `String::new` (string.rs:39-45):
`CString::new(s).unwrap_or_else(|_| CString::new("").unwrap())` — an
embedded NUL is silently replaced by the empty C string — followed by
`JSStringCreateWithUTF8CString`.  Total: no error channel, no panic. -/
def JSString.new (s : String) : JSString :=
  let c_string := (CString.new s).getD []
  JSStringCreateWithUTF8CString c_string

/-- Embeds `String::len` (string.rs:109-111) via the native
`JSStringGetLength`: the string's length in UTF-16 code units. -/
def JSString.len (s : JSString) : Nat :=
  (s.chars.map (fun c => if c.val < 65536 then 1 else 2)).sum

/-- Embeds `Value::to_number` (value.rs:317-328): when the native
exception out-parameter comes back non-null, the error built by
`Error::from_js_exception` is returned; otherwise the native result.
The `exception` parameter models the out-parameter after the call
(`none` = still null), `result` the returned number (numeric payload
abstracted). -/
def Value.to_number (v : Value) (exception : Option JSExcValue)
    (result : Nat) : Except Error Nat :=
  match exception with
  | some e => Except.error (Error.from_js_exception e)
  | none => Except.ok result

/-- Embeds `Value::to_string` (value.rs:335-350): a non-null exception
out-parameter wins over everything; otherwise a null `JSValueToStringCopy`
result is a `JSError`; otherwise the native string is wrapped.  `result`
models the native string by its content (`none` = null). -/
def Value.to_string (v : Value) (exception : Option JSExcValue)
    (result : Option JSString) : Except Error JSString :=
  match exception with
  | some e => Except.error (Error.from_js_exception e)
  | none =>
    match result with
    | none => Except.error (Error.JSError "Failed to convert value to string")
    | some s => Except.ok s

/-- Embeds `Value::to_object` (value.rs:357-372): same shape as
`to_string` with a null-object check. -/
def Value.to_object (v : Value) (exception : Option JSExcValue)
    (result : Nat) : Except Error Object :=
  match exception with
  | some e => Except.error (Error.from_js_exception e)
  | none =>
    if result = 0 then
      Except.error (Error.JSError "Failed to convert value to object")
    else Except.ok ⟨result⟩

/-- Embeds `Value::string` (value.rs:166-170) at the level of string
content: the JS value created by `JSValueMakeString` wraps exactly the
native string built by `String::new(value)`; the model returns that
string. -/
def Value.string (value : String) : JSString :=
  let js_string := JSString.new value
  js_string

end UL2.jsCore

namespace UL2

open UL2.appCore UL2.ul

/-- C1: evaluation of the trampolines at a concrete failing input.  With
non-null `user_data = 1` and `window_ptr = 5` and a callback that
performs no native calls, `close_callback_wrapper` emits
`ulDestroyWindow 5`: the temporary `Window` built by `from_raw_temp` is
destroyed on drop, contradicting the claim (and `from_raw_temp`'s own
documentation).  `resize_callback_wrapper` does the same, while the view
trampoline `change_title_callback` emits no destroy call thanks to
`mem::forget`. -/
theorem c1_window_trampoline_destroys_on_drop :
    close_callback_wrapper 1 5 (fun _ => []) = [NativeCall.ulDestroyWindow 5] ∧
    NativeCall.ulDestroyWindow 5 ∈ close_callback_wrapper 1 5 (fun _ => []) ∧
    resize_callback_wrapper 1 5 100 200 (fun _ _ _ => []) =
      [NativeCall.ulDestroyWindow 5] ∧
    change_title_callback 1 5 7 (fun _ _ => []) = [] := by
  refine ⟨rfl, ?_, rfl, rfl⟩
  simp [close_callback_wrapper, Window.from_raw_temp, Window.dropCalls]

/-- Helper: reading a NUL-terminated buffer whose payload has no NUL
recovers exactly the payload. -/
theorem takeWhile_append_nul (l : List Char)
    (hl : ∀ c ∈ l, ¬(c = Char.ofNat 0)) :
    CStr.from_ptr (l ++ [Char.ofNat 0]) = l := by
  induction l with
  | nil => simp [CStr.from_ptr, List.takeWhile]
  | cons a t ih =>
    have ha : ¬(a = Char.ofNat 0) := hl a (by simp)
    have ht := ih (fun c hc => hl c (by simp [hc]))
    simp only [CStr.from_ptr, ne_eq, decide_not] at ht ⊢
    simp only [List.cons_append, List.takeWhile_cons]
    simp [ha, ht]

/-- Helper: `containsNul s = false` gives NUL-freedom of the character
list. -/
theorem not_mem_nul_of_containsNul_eq_false {s : String}
    (h : containsNul s = false) : ∀ c ∈ s.data, ¬(c = Char.ofNat 0) := by
  intro c hc
  have := (List.any_eq_false).mp h c hc
  simpa using this

/-- C2 counterexample: on the input `"a\x00b"`, which carries an embedded
NUL, `ul::String::from_str` panics (the `CString::new(..).unwrap()` on
string.rs:50) instead of returning an `InvalidArgument` error. -/
theorem c2_from_str_panics_on_nul :
    ULString.from_str ULHeap.empty "a\x00b" = RustOutcome.panicked := by
  rfl

/-- C2 (amended): for every host string with an embedded NUL,
`ul::String::from_str` — and `Settings::set_app_name`, which is built on
it — panics rather than producing an error, while `Window::set_title`,
which builds its C string directly, returns an `InvalidArgument` error
and performs no native call (no truncation). -/
theorem c2_nul_handling (s : String) (h : ULHeap) (w : Window)
    (st : Settings) (hnul : containsNul s = true) :
    ULString.from_str h s = RustOutcome.panicked ∧
    Settings.set_app_name st h s = RustOutcome.panicked ∧
    Window.set_title w s =
      Except.error (appCore.Error.InvalidArgument "Title contains null bytes") := by
  have hc : CString.new s = none := by
    simp [CString.new, hnul]
  refine ⟨?_, ?_, ?_⟩
  · simp [ULString.from_str, hc]
  · simp [Settings.set_app_name, ULString.from_str, hc]
  · simp [Window.set_title, hc]

/-- Witness for `c2_nul_handling` at the concrete input `"a\x00b"`. -/
theorem c2_nul_handling_witness :
    containsNul "a\x00b" = true ∧
    (ULString.from_str ULHeap.empty "a\x00b" = RustOutcome.panicked ∧
     Settings.set_app_name ⟨3⟩ ULHeap.empty "a\x00b" = RustOutcome.panicked ∧
     Window.set_title ⟨5⟩ "a\x00b" =
       Except.error (appCore.Error.InvalidArgument "Title contains null bytes")) :=
  ⟨by decide, c2_nul_handling "a\x00b" ULHeap.empty ⟨5⟩ ⟨3⟩ (by decide)⟩

/-- C3: for every UTF-8 host string without embedded NUL bytes and every
native string store with a non-null fresh address, `from_str` succeeds
with an owned wrapper and `as_str` on the result reads back exactly the
original string: the round trip is the identity. -/
theorem c3_string_roundtrip (h : ULHeap) (s : String)
    (hnul : containsNul s = false) (hnext : h.next ≠ 0) :
    ∃ h2 u, ULString.from_str h s = RustOutcome.value (h2, u) ∧
      u.owned = true ∧
      ULString.as_str h2 u = Except.ok s := by
  have hfree := not_mem_nul_of_containsNul_eq_false hnul
  have hc : CString.new s = some s.data := by
    simp [CString.new, hnul]
  have hstored : CStr.from_ptr (s.data ++ [Char.ofNat 0]) = s.data :=
    takeWhile_append_nul s.data hfree
  refine ⟨⟨(h.next, s.data) :: h.strings, h.next + 1⟩, ⟨h.next, true⟩, ?_, rfl, ?_⟩
  · simp [ULString.from_str, hc, ulCreateString, hstored]
  · simp [ULString.as_str, hnext, ulStringGetData, List.lookup, hstored]

/-- Witness for `c3_string_roundtrip` at the concrete input `"abc"` on a
fresh store. -/
theorem c3_string_roundtrip_witness :
    containsNul "abc" = false ∧ ULHeap.empty.next ≠ 0 ∧
    (∃ h2 u, ULString.from_str ULHeap.empty "abc" = RustOutcome.value (h2, u) ∧
      u.owned = true ∧
      ULString.as_str h2 u = Except.ok "abc") :=
  ⟨by decide, by decide,
   c3_string_roundtrip ULHeap.empty "abc" (by decide) (by decide)⟩

/-- C4 counterexample: `View::new` and `GlobalContext::new` perform no
null check: when the native create call returns null, each produces a
wrapper holding the null pointer instead of a `CreationFailed` /
`NullReference` error (their return types have no error channel at
all). -/
theorem c4_unchecked_null_constructors :
    View.new 0 = ⟨0⟩ ∧ (View.new 0).raw = 0 ∧
    jsCore.GlobalContext.new 0 = ⟨0⟩ ∧ (jsCore.GlobalContext.new 0).raw = 0 :=
  ⟨rfl, rfl, rfl, rfl⟩

/-- C4 (amended): `Settings::new`, `Window::new` and `App::new` return
an explicit `CreationFailed` error exactly when the native create call
returns null, and wrap the pointer on success; `View::new` and
`GlobalContext::new` check nothing and wrap whatever pointer the native
call returned, null included. -/
theorem c4_constructor_null_policy (r : Nat) (hr : r ≠ 0) :
    Settings.new 0 =
      Except.error (appCore.Error.CreationFailed "Failed to create settings") ∧
    Window.new 0 =
      Except.error (appCore.Error.CreationFailed "Failed to create window") ∧
    App.new 0 =
      Except.error (appCore.Error.CreationFailed "Failed to create app instance") ∧
    Settings.new r = Except.ok ⟨r⟩ ∧
    Window.new r = Except.ok ⟨r⟩ ∧
    App.new r = Except.ok ⟨r⟩ ∧
    View.new r = ⟨r⟩ ∧
    jsCore.GlobalContext.new r = ⟨r⟩ := by
  refine ⟨rfl, rfl, rfl, ?_, ?_, ?_, rfl, rfl⟩ <;>
    simp [Settings.new, Window.new, App.new, hr]

/-- Witness for `c4_constructor_null_policy` at the concrete non-null
native result `7`. -/
theorem c4_constructor_null_policy_witness :
    Settings.new 0 =
      Except.error (appCore.Error.CreationFailed "Failed to create settings") ∧
    Window.new 0 =
      Except.error (appCore.Error.CreationFailed "Failed to create window") ∧
    App.new 0 =
      Except.error (appCore.Error.CreationFailed "Failed to create app instance") ∧
    Settings.new 7 = Except.ok ⟨7⟩ ∧
    Window.new 7 = Except.ok ⟨7⟩ ∧
    App.new 7 = Except.ok ⟨7⟩ ∧
    View.new 7 = ⟨7⟩ ∧
    jsCore.GlobalContext.new 7 = ⟨7⟩ :=
  c4_constructor_null_policy 7 (by decide)

/-- C5 counterexample: on a view event-callback slot, registering
callback `1` and then callback `2` leaves the trampoline invoking `2`,
but callback `1`'s boxed state — allocated exactly once by
`CallbackData::new` — is freed zero times, not exactly once as the
claim requires. -/
theorem c5_view_slot_leaks_on_replacement :
    (ViewSlotModel.set_change_title_callback
      (ViewSlotModel.set_change_title_callback ViewSlotModel.empty 1) 2).invoke
        = some 2 ∧
    (ViewSlotModel.set_change_title_callback
      (ViewSlotModel.set_change_title_callback ViewSlotModel.empty 1)
        2).allocatedBoxes.count 1 = 1 ∧
    (ViewSlotModel.set_change_title_callback
      (ViewSlotModel.set_change_title_callback ViewSlotModel.empty 1)
        2).freedBoxes.count 1 = 0 := by
  decide

/-- C5 (amended): on the `CallbackStorage`-backed slots (Window
close/resize, App update), registering A then B makes a subsequent
trampoline invocation run B, and A's boxed state is dropped exactly once
(the drop log is exactly `[A]`); on the view event-callback slots the
invocation also runs B, but A's boxed state is leaked — allocated and
never freed. -/
theorem c5_callback_replacement (a b : Nat) :
    ((CallbackStorageModel.empty.set_callback a).set_callback b).invoke
      = some b ∧
    ((CallbackStorageModel.empty.set_callback a).set_callback b).droppedBoxes
      = [a] ∧
    ((ViewSlotModel.empty.set_change_title_callback
        a).set_change_title_callback b).invoke = some b ∧
    ((ViewSlotModel.empty.set_change_title_callback
        a).set_change_title_callback b).freedBoxes = [] ∧
    ((ViewSlotModel.empty.set_change_title_callback
        a).set_change_title_callback b).allocatedBoxes = [a, b] :=
  ⟨rfl, rfl, rfl, rfl, rfl⟩

/-- Helper: a collection of wrappers each of which emits no native calls
on drop emits no native calls in total. -/
theorem combinedDrops_eq_nil {α : Type} (f : α → List NativeCall)
    (hs : List α) (h : ∀ x ∈ hs, f x = []) : combinedDrops f hs = [] := by
  induction hs with
  | nil => rfl
  | cons x t ih =>
    have hx := h x (by simp)
    have ht := ih (fun y hy => h y (by simp [hy]))
    simp only [combinedDrops, List.map_cons, List.flatten_cons] at ht ⊢
    simp [hx, ht]

/-- C6: for every non-null native object, dropping the single owning
wrapper (`ul::String`, `Bitmap`, `Buffer`) emits exactly the one native
destroy call — and nothing else, so it cannot be emitted twice — while
dropping any collection of non-owning views of the same object emits
zero native calls. -/
theorem c6_owning_drop_once_borrowed_drop_zero (raw : Nat) (hraw : raw ≠ 0) :
    ULString.dropCalls (ULString.from_raw raw true)
      = [NativeCall.ulDestroyString raw] ∧
    (ULString.dropCalls (ULString.from_raw raw true)).count
      (NativeCall.ulDestroyString raw) = 1 ∧
    (∀ hs : List ULString, (∀ u ∈ hs, u.owned = false) →
      combinedDrops ULString.dropCalls hs = []) ∧
    Bitmap.dropCalls (Bitmap.from_raw raw true)
      = [NativeCall.ulDestroyBitmap raw] ∧
    (∀ hs : List Bitmap, (∀ u ∈ hs, u.owned = false) →
      combinedDrops Bitmap.dropCalls hs = []) ∧
    Buffer.dropCalls (Buffer.from_raw raw true)
      = [NativeCall.ulDestroyBuffer raw] ∧
    (∀ hs : List Buffer, (∀ u ∈ hs, u.owned = false) →
      combinedDrops Buffer.dropCalls hs = []) := by
  refine ⟨?_, ?_, ?_, ?_, ?_, ?_, ?_⟩
  · simp [ULString.dropCalls, ULString.from_raw, hraw]
  · simp [ULString.dropCalls, ULString.from_raw, hraw]
  · intro hs hb
    exact combinedDrops_eq_nil _ hs
      (fun u hu => by simp [ULString.dropCalls, hb u hu])
  · simp [Bitmap.dropCalls, Bitmap.from_raw, hraw]
  · intro hs hb
    exact combinedDrops_eq_nil _ hs
      (fun u hu => by simp [Bitmap.dropCalls, hb u hu])
  · simp [Buffer.dropCalls, Buffer.from_raw, hraw]
  · intro hs hb
    exact combinedDrops_eq_nil _ hs
      (fun u hu => by simp [Buffer.dropCalls, hb u hu])

/-- Witness for `c6_owning_drop_once_borrowed_drop_zero` at the native
object `5` with two borrowed string views and one borrowed bitmap and
buffer view each. -/
theorem c6_owning_drop_once_borrowed_drop_zero_witness :
    ULString.dropCalls (ULString.from_raw 5 true)
      = [NativeCall.ulDestroyString 5] ∧
    combinedDrops ULString.dropCalls
      [ULString.from_raw 5 false, ULString.from_raw 5 false] = [] ∧
    Bitmap.dropCalls (Bitmap.from_raw 5 true)
      = [NativeCall.ulDestroyBitmap 5] ∧
    combinedDrops Bitmap.dropCalls [Bitmap.from_raw 5 false] = [] ∧
    Buffer.dropCalls (Buffer.from_raw 5 true)
      = [NativeCall.ulDestroyBuffer 5] ∧
    combinedDrops Buffer.dropCalls [Buffer.from_raw 5 false] = [] := by
  have h := c6_owning_drop_once_borrowed_drop_zero 5 (by decide)
  exact ⟨h.1, h.2.2.1 _ (by decide), h.2.2.2.1, h.2.2.2.2.1 _ (by decide),
    h.2.2.2.2.2.1, h.2.2.2.2.2.2 _ (by decide)⟩

/-- C7: when the native lock call returns null, `Bitmap::lock_pixels`
fails with a `NullReference` error and `Surface::lock_pixels` with
`Err(())`, and no guard is produced; when it succeeds, a scope holding
the guard emits exactly one matching unlock call — on every exit path,
since the guard's drop is appended regardless of what the body did —
provided the body itself performs no such unlock. -/
theorem c7_scoped_lock (braw sraw lockResult size : Nat)
    (bbody : BitmapLockedPixels → List NativeCall)
    (sbody : SurfaceLockedPixels → List NativeCall)
    (hbbody : ∀ g, (bbody g).count (NativeCall.ulBitmapUnlockPixels braw) = 0)
    (hsbody : ∀ g, (sbody g).count (NativeCall.ulSurfaceUnlockPixels sraw) = 0) :
    (lockResult = 0 →
      (Bitmap.lock_pixels (Bitmap.from_raw braw true) lockResult size).2 =
        Except.error (ul.Error.NullReference "Failed to lock bitmap pixels") ∧
      (Surface.lock_pixels (Surface.from_raw sraw) lockResult size).2 =
        Except.error ()) ∧
    (Bitmap.lock_pixels_scope (Bitmap.from_raw braw true) lockResult size
        bbody).count (NativeCall.ulBitmapUnlockPixels braw)
      = (if lockResult = 0 then 0 else 1) ∧
    (Surface.lock_pixels_scope (Surface.from_raw sraw) lockResult size
        sbody).count (NativeCall.ulSurfaceUnlockPixels sraw)
      = (if lockResult = 0 then 0 else 1) := by
  by_cases hl : lockResult = 0
  · refine ⟨fun _ => ?_, ?_, ?_⟩
    · simp [Bitmap.lock_pixels, Surface.lock_pixels, Bitmap.from_raw,
        Surface.from_raw, hl]
    · simp [Bitmap.lock_pixels_scope, Bitmap.lock_pixels, Bitmap.from_raw, hl]
    · simp [Surface.lock_pixels_scope, Surface.lock_pixels, Surface.from_raw, hl]
  · refine ⟨fun h0 => absurd h0 hl, ?_, ?_⟩
    · simp [Bitmap.lock_pixels_scope, Bitmap.lock_pixels, Bitmap.from_raw, hl,
        BitmapLockedPixels.dropCalls, List.count_append, hbbody]
    · simp [Surface.lock_pixels_scope, Surface.lock_pixels, Surface.from_raw, hl,
        SurfaceLockedPixels.dropCalls, List.count_append, hsbody]

/-- Witness for `c7_scoped_lock`: a failing lock (`lockResult = 0`) on
bitmap `3` / surface `4`, and a succeeding lock (`lockResult = 7`) with
an empty body emitting exactly one unlock each. -/
theorem c7_scoped_lock_witness :
    (Bitmap.lock_pixels (Bitmap.from_raw 3 true) 0 9).2 =
      Except.error (ul.Error.NullReference "Failed to lock bitmap pixels") ∧
    (Surface.lock_pixels (Surface.from_raw 4) 0 9).2 = Except.error () ∧
    (Bitmap.lock_pixels_scope (Bitmap.from_raw 3 true) 7 9
      (fun _ => [])).count (NativeCall.ulBitmapUnlockPixels 3) = 1 ∧
    (Surface.lock_pixels_scope (Surface.from_raw 4) 7 9
      (fun _ => [])).count (NativeCall.ulSurfaceUnlockPixels 4) = 1 := by
  have h0 := c7_scoped_lock 3 4 0 9 (fun _ => []) (fun _ => [])
    (fun g => rfl) (fun g => rfl)
  have h7 := c7_scoped_lock 3 4 7 9 (fun _ => []) (fun _ => [])
    (fun g => rfl) (fun g => rfl)
  refine ⟨(h0.1 rfl).1, (h0.1 rfl).2, ?_, ?_⟩
  · simpa using h7.2.1
  · simpa using h7.2.2

/-- C8: each possibly-absent accessor (`Object::get_proxy_target`,
`Object::get_private_property`, `View::surface`) returns `None` exactly
when the underlying native call yields null, and `Some` of the wrapped
value otherwise — for every native result. -/
theorem c8_nullable_accessors (o : jsCore.Object) (v : View) (r : Nat) :
    (r = 0 →
      jsCore.Object.get_proxy_target o r = none ∧
      jsCore.Object.get_private_property o r = Except.ok none ∧
      View.surface v r = none) ∧
    (r ≠ 0 →
      jsCore.Object.get_proxy_target o r = some ⟨r⟩ ∧
      jsCore.Object.get_private_property o r = Except.ok (some ⟨r⟩) ∧
      View.surface v r = some (Surface.from_raw r)) := by
  constructor <;> intro hr <;>
    simp [jsCore.Object.get_proxy_target, jsCore.Object.get_private_property,
      View.surface, hr]

/-- Witness for `c8_nullable_accessors` at the null native result `0`
and at the non-null native result `7`. -/
theorem c8_nullable_accessors_witness :
    jsCore.Object.get_proxy_target ⟨1⟩ 0 = none ∧
    jsCore.Object.get_private_property ⟨1⟩ 0 = Except.ok none ∧
    View.surface ⟨2⟩ 0 = none ∧
    jsCore.Object.get_proxy_target ⟨1⟩ 7 = some ⟨7⟩ ∧
    jsCore.Object.get_private_property ⟨1⟩ 7 = Except.ok (some ⟨7⟩) ∧
    View.surface ⟨2⟩ 7 = some (Surface.from_raw 7) := by
  have h0 := (c8_nullable_accessors ⟨1⟩ ⟨2⟩ 0).1 rfl
  have h7 := (c8_nullable_accessors ⟨1⟩ ⟨2⟩ 7).2 (by decide)
  exact ⟨h0.1, h0.2.1, h0.2.2, h7.1, h7.2.1, h7.2.2⟩

/-- C9: whenever the native engine reports an exception through the
out-parameter, `to_number`, `to_string` and `to_object` return the error
built by `Error::from_js_exception`; that error is always a
`JSException` carrying the exception's message, and when the exception
is an object convertible to one whose probed properties yield values,
the corresponding location/stack fields carry them; absence of any
property leaves its field `None` without producing a different error. -/
theorem c9_conversion_exception (v : jsCore.Value) (e : jsCore.JSExcValue)
    (numResult objResult : Nat) (strResult : Option jsCore.JSString) :
    jsCore.Value.to_number v (some e) numResult =
      Except.error (jsCore.Error.from_js_exception e) ∧
    jsCore.Value.to_string v (some e) strResult =
      Except.error (jsCore.Error.from_js_exception e) ∧
    jsCore.Value.to_object v (some e) objResult =
      Except.error (jsCore.Error.from_js_exception e) ∧
    (∃ info, jsCore.Error.from_js_exception e = jsCore.Error.JSException info ∧
      (∀ m, e.to_string_result = some m → info.message = m) ∧
      (e.is_object = true → e.to_object_ok = true →
        (∀ p u, e.sourceURL = some p → p.str = some u →
          info.source_url = some u) ∧
        (∀ p n, e.line = some p → p.num = some n → info.line = some n) ∧
        (∀ p n, e.column = some p → p.num = some n → info.column = some n) ∧
        (∀ p u, e.stack = some p → p.str = some u →
          info.stack_trace = some u))) := by
  refine ⟨rfl, rfl, rfl, ?_⟩
  unfold jsCore.Error.from_js_exception
  by_cases hobj : (e.is_object && e.to_object_ok) = true
  · simp only [hobj, if_true]
    refine ⟨_, rfl, ?_, fun _ _ => ⟨?_, ?_, ?_, ?_⟩⟩
    · intro m hm; simp [hm]
    all_goals intro p x hp hx; simp [hp, hx]
  · simp only [hobj, if_false]
    refine ⟨_, rfl, ?_, ?_⟩
    · intro m hm; simp [hm]
    · intro h1 h2
      exact absurd (by simp [h1, h2]) hobj

/-- Witness for `c9_conversion_exception`: a concrete exception object
with message `"boom"` exposing all four properties; the conversions
return a `JSException` carrying all of them. -/
theorem c9_conversion_exception_witness :
    jsCore.Value.to_number ⟨1⟩
        (some ⟨some "boom", true, true, some ⟨some "file.js", none⟩,
          some ⟨none, some 3⟩, some ⟨none, some 7⟩, some ⟨some "trace", none⟩⟩)
        0 =
      Except.error (jsCore.Error.JSException
        ⟨"boom", some "file.js", some 3, some 7, some "trace"⟩) := by
  have h := (c9_conversion_exception ⟨1⟩
    ⟨some "boom", true, true, some ⟨some "file.js", none⟩,
      some ⟨none, some 3⟩, some ⟨none, some 7⟩, some ⟨some "trace", none⟩⟩
    0 0 none).1
  simpa [jsCore.Error.from_js_exception] using h

/-- C10: for every input string with an embedded NUL,
`javascript_core::String::new` silently substitutes the empty string —
no failure, no panic (its return type has no error channel) — so the
resulting JS string has no characters and UTF-16 length `0`, and
`Value::string` on such input wraps that same empty JS string. -/
theorem c10_js_string_nul_substitution (s : String)
    (h : containsNul s = true) :
    jsCore.JSString.new s = ⟨[]⟩ ∧
    jsCore.JSString.len (jsCore.JSString.new s) = 0 ∧
    jsCore.Value.string s = ⟨[]⟩ := by
  have hc : CString.new s = none := by
    simp [CString.new, h]
  refine ⟨?_, ?_, ?_⟩ <;>
    simp [jsCore.JSString.new, jsCore.Value.string, hc,
      jsCore.JSStringCreateWithUTF8CString, CStr.from_ptr, jsCore.JSString.len]

/-- Witness for `c10_js_string_nul_substitution` at the concrete input
`"a\x00b"`. -/
theorem c10_js_string_nul_substitution_witness :
    containsNul "a\x00b" = true ∧
    (jsCore.JSString.new "a\x00b" = ⟨[]⟩ ∧
     jsCore.JSString.len (jsCore.JSString.new "a\x00b") = 0 ∧
     jsCore.Value.string "a\x00b" = ⟨[]⟩) :=
  ⟨by decide, c10_js_string_nul_substitution "a\x00b" (by decide)⟩

end UL2
